import Mathlib

/-!
# Verification of the intraday trading bot (app_files/bot_kite.py)

This file gives a shallow embedding, over the rationals, of the trade
lifecycle logic of the bot: position sizing, initial stop computation,
the stop-distance factor, the daily loss circuit breaker, the signal
filter chain with retest handling, and one tick of the exit-management
(monitoring) loop with ATR trailing, staged partial booking and the
closing checks.  Prices and quantities are modelled as rationals and
integers; broker and data-feed calls are modelled as oracle inputs
(an optional price, an optional ATR value, order-success flags).
-/

namespace TradingBot

/-- Trade direction, the string side "BUY" / "SELL" in the source. -/
inductive Side where
  | buy
  | sell
deriving DecidableEq, Repr

/-- Python truthiness of an optional float: None and 0.0 are falsy. -/
def pyTruthy (a : Option ℚ) : Option ℚ :=
  match a with
  | some x => if x = 0 then none else some x
  | none => none

/-- Python int() applied to a float: truncation toward zero. -/
def pytrunc (q : ℚ) : ℤ :=
  if q < 0 then ⌈q⌉ else ⌊q⌋

/-- Embedding of calculate_dynamic_quantity (bot_kite.py lines 235-272).
quantity = int(balance * utilization * leverage_factor / entry_price),
returning 0 when the balance is non-positive, when the division fails
(entry_price = 0 raises, the except branch returns 0), or when the
truncated quantity is below 1. -/
def calculate_dynamic_quantity (account_balance utilization : ℚ)
    (use_leverage_in_sizing : Bool) (leverage entry_price : ℚ) : ℤ :=
  if account_balance ≤ 0 then 0
  else if entry_price = 0 then 0
  else
    let leverage_factor : ℚ := if use_leverage_in_sizing then leverage else 1
    let capital_for_trade := account_balance * utilization * leverage_factor
    let quantity := pytrunc (capital_for_trade / entry_price)
    if quantity < 1 then 0 else quantity

/-- Embedding of apply_stoploss_distance_factor (bot_kite.py lines 1963-1984):
for factor below 1 the raw stop distance is scaled by the factor and
reapplied from the entry price in the trade direction; for factor at least 1
the stop is returned unchanged. -/
def apply_stoploss_distance_factor (entry_price sl_price : ℚ) (side : Side)
    (factor : ℚ) : ℚ :=
  if 1 ≤ factor then sl_price
  else
    let risk_distance := |entry_price - sl_price|
    let new_risk_distance := risk_distance * factor
    match side with
    | Side.buy => entry_price - new_risk_distance
    | Side.sell => entry_price + new_risk_distance

/-- Embedding of calculate_dynamic_sl (bot_kite.py lines 1986-2012):
for a long the minimum of (candle low - buffer) and VWAP, for a short the
maximum of (candle high + buffer) and VWAP. -/
def calculate_dynamic_sl (side : Side) (vwap h5 l5 buffer : ℚ) : ℚ :=
  match side with
  | Side.buy => min (l5 - buffer) vwap
  | Side.sell => max (h5 + buffer) vwap

/-- The stop level closer to the entry price, as the specification words
"the tighter (closer to entry)" read; compared against the source
definition calculate_dynamic_sl. -/
def tighter_to_entry (entry a b : ℚ) : ℚ :=
  if |entry - a| ≤ |entry - b| then a else b

/-- Python expression (starting_balance or account_balance or 1): the first
truthy value in the chain, defaulting to 1. -/
def actual_balance_of (starting_balance account_balance : Option ℚ) : ℚ :=
  match pyTruthy starting_balance with
  | some x => x
  | none =>
    match pyTruthy account_balance with
    | some y => y
    | none => 1

/-- Observable outcome of one call to check_daily_loss_limit. -/
structure LossCheckResult where
  can_continue : Bool
  closed_all_positions : Bool
  should_stop : Bool
deriving DecidableEq, Repr

/-- Embedding of check_daily_loss_limit (bot_kite.py lines 2049-2079).
The day's realized P&L is the sum over trades_today; the loss percentage is
that sum over the balance (0 when the balance is non-positive); the breaker
trips when the percentage is at most minus the configured limit, closing all
positions and, when auto-shutdown is configured, latching should_stop. -/
def check_daily_loss_limit (use_daily_loss_limit auto_shutdown : Bool)
    (daily_loss_limit_pct : ℚ) (trades_today : List ℚ)
    (starting_balance account_balance : Option ℚ) (should_stop0 : Bool) :
    LossCheckResult :=
  if use_daily_loss_limit = false then
    { can_continue := true, closed_all_positions := false,
      should_stop := should_stop0 }
  else
    let daily_pnl := trades_today.sum
    let actual_balance := actual_balance_of starting_balance account_balance
    let daily_loss_pct := if 0 < actual_balance then daily_pnl / actual_balance else 0
    if daily_loss_pct ≤ -daily_loss_limit_pct then
      { can_continue := false, closed_all_positions := true,
        should_stop := should_stop0 || auto_shutdown }
    else
      { can_continue := true, closed_all_positions := false,
        should_stop := should_stop0 }

/-- The guard of the entry-scanning loop (bot_kite.py line 865):
scanning continues only while no signal was found and no stop was requested. -/
def entry_scan_active (signal_found should_stop : Bool) : Bool :=
  !signal_found && !should_stop

/-! ## The monitoring (exit-management) loop, bot_kite.py lines 1235-1493 -/

/-- Per-trade constants fixed before the monitoring loop starts:
the entry side and price, the initial quantity, the adjusted initial stop,
base_risk (line 1218), the target ladder prices, the staged close
quantities (lines 1199-1216), and the session balances read by the daily
loss check. -/
structure TradeParams where
  entry_side : Side
  entry_price : ℚ
  quantity : ℤ
  initial_sl : ℚ
  base_risk : ℚ
  target_price : Option ℚ
  second_target_price : Option ℚ
  first_close_qty : ℤ
  second_close_qty : ℤ
  starting_balance : Option ℚ
  account_balance : Option ℚ
deriving DecidableEq, Repr

/-- Configuration values the monitoring loop branches on. -/
structure BotConfig where
  use_atr_trailing_exit : Bool
  atr_trail_start_r : ℚ
  atr_trail_multiplier : ℚ
  use_staged_booking : Bool
  use_daily_loss_limit : Bool
  auto_shutdown_on_loss_limit : Bool
  daily_loss_limit_pct : ℚ
deriving DecidableEq, Repr

/-- Mutable state of one open trade inside the monitoring loop, together
with the session lists trades and trades_today of KiteApp.  exited_qtys is
a ghost field recording the quantity of every partial-booking leg that was
actually closed. -/
structure TradeState where
  sl_price : ℚ
  last_price : ℚ
  sl_moved_to_breakeven : Bool
  sl_moved_to_entry_after_2r : Bool
  booked_75pct : Bool
  first_leg_booked : Bool
  second_leg_booked : Bool
  remaining_quantity : ℤ
  realized_pnl : ℚ
  exited_qtys : List ℤ
  trades : List ℚ
  trades_today : List ℚ
  should_stop : Bool
deriving DecidableEq, Repr

/-- State of the loop locals right after the trade is opened
(bot_kite.py lines 1166-1177), with the session lists as initialized in
KiteApp (lines 76-78, 100-107). -/
def initial_trade_state (p : TradeParams) : TradeState :=
  { sl_price := p.initial_sl
    last_price := p.entry_price
    sl_moved_to_breakeven := false
    sl_moved_to_entry_after_2r := false
    booked_75pct := false
    first_leg_booked := false
    second_leg_booked := false
    remaining_quantity := p.quantity
    realized_pnl := 0
    exited_qtys := []
    trades := []
    trades_today := []
    should_stop := false }

/-- Oracle inputs to one iteration of the monitoring loop: the wall clock
flag for the 3:25 PM cutoff, the live price (None models a missing quote),
the cached ATR value, and the success of the close_position calls that the
iteration may make. -/
structure TickInput where
  eod_reached : Bool
  price : Option ℚ
  atr : Option ℚ
  t1_order_ok : Bool
  t2_order_ok : Bool
  final_order_ok : Bool
deriving DecidableEq, Repr

/-- How one iteration of the monitoring loop ends: keep looping, break out
with the trade closed, or return False and stop the session (the daily
loss branch). -/
inductive TickOutcome where
  | cont
  | closed
  | stopSession
deriving DecidableEq, Repr

/-- Result of one monitoring-loop iteration; sl_moves is a ghost trace of
the stop price after each stop-moving operation that fired, in program
order (ATR trail, 1R breakeven, stage-2 lock). -/
structure TickResult where
  state : TradeState
  outcome : TickOutcome
  sl_moves : List ℚ
deriving DecidableEq, Repr

/-- Directional profit (bot_kite.py line 1293). -/
def directional_profit (side : Side) (entry_price price : ℚ) : ℚ :=
  match side with
  | Side.buy => price - entry_price
  | Side.sell => entry_price - price

/-- Per-leg P&L (bot_kite.py lines 1246, 1341, 1356, ...):
(exit - entry) * qty for a long, (entry - exit) * qty for a short. -/
def legPnl (side : Side) (entry_price exit_price : ℚ) (qty : ℤ) : ℚ :=
  match side with
  | Side.buy => (exit_price - entry_price) * (qty : ℚ)
  | Side.sell => (entry_price - exit_price) * (qty : ℚ)

/-- Target-touch tests of the booking branches (lines 1335, 1350):
price at or beyond the target in the trade direction. -/
def price_crossed (side : Side) (price target : ℚ) : Bool :=
  match side with
  | Side.buy => target ≤ price
  | Side.sell => price ≤ target

/-- The ATR trailing stop update (bot_kite.py lines 1291-1315): when
trailing is enabled, base_risk is positive, the directional profit reached
the start multiple and a positive ATR value is available, the candidate
stop price (price minus or plus ATR * multiplier) replaces the stop only
when it improves it
(strictly higher for a long, strictly lower for a short). -/
def atr_trailing_update (cfg : BotConfig) (p : TradeParams) (s : TradeState)
    (price : ℚ) (atr : Option ℚ) : TradeState × List ℚ :=
  if cfg.use_atr_trailing_exit ∧ 0 < p.base_risk then
    if p.base_risk * cfg.atr_trail_start_r ≤ directional_profit p.entry_side p.entry_price price then
      match atr with
      | some atr_value =>
        if 0 < atr_value then
          let trail_distance := atr_value * cfg.atr_trail_multiplier
          match p.entry_side with
          | Side.buy =>
            let new_sl := price - trail_distance
            if s.sl_price < new_sl then
              ({ s with sl_price := new_sl }, [new_sl])
            else (s, [])
          | Side.sell =>
            let new_sl := price + trail_distance
            if new_sl < s.sl_price then
              ({ s with sl_price := new_sl }, [new_sl])
            else (s, [])
        else (s, [])
      | none => (s, [])
    else (s, [])
  else (s, [])

/-- The 1R breakeven move inside the partial-booking block
(bot_kite.py lines 1319-1330): when the stop was not yet moved to
breakeven and the absolute excursion from the entry reached the risk, the
stop is set to the entry price.  risk falls back to the current stop
distance when base_risk is zero (line 1319); profit here is the absolute
price difference (line 1320), not the directional profit. -/
def breakeven_1r_update (p : TradeParams) (s : TradeState) (price : ℚ) :
    TradeState × List ℚ :=
  let risk := if 0 < p.base_risk then p.base_risk else |p.entry_price - s.sl_price|
  let profit := |price - p.entry_price|
  if ¬s.sl_moved_to_breakeven ∧ risk ≤ profit then
    ({ s with sl_price := p.entry_price, sl_moved_to_breakeven := true },
      [p.entry_price])
  else (s, [])

/-- The Target 1 partial close (bot_kite.py lines 1332-1345): when the
first leg is unbooked, the first target is truthy and touched, and the
current quantity (remaining, falling back to the initial quantity when
zero) exceeds one, close min(first_close_qty, current-1) shares; on order
success accumulate the leg P&L, mark the leg booked and shrink the
remaining quantity. -/
def target1_update (p : TradeParams) (s : TradeState) (price : ℚ)
    (order_ok : Bool) : TradeState :=
  let current := if s.remaining_quantity ≠ 0 then s.remaining_quantity else p.quantity
  match pyTruthy p.target_price with
  | some tp =>
    if ¬s.first_leg_booked ∧ 0 < p.first_close_qty ∧ 1 < current ∧
        price_crossed p.entry_side price tp then
      let close_qty := min p.first_close_qty (max (current - 1) 0)
      if 0 < close_qty ∧ order_ok then
        { s with
          realized_pnl := s.realized_pnl + legPnl p.entry_side p.entry_price price close_qty
          first_leg_booked := true
          remaining_quantity := current - close_qty
          exited_qtys := s.exited_qtys ++ [close_qty] }
      else s
    else s
  | none => s

/-- The Target 2 partial close with the stage-2 breakeven lock
(bot_kite.py lines 1347-1397): after the first leg, when the second target
is truthy and touched, close min(second_close_qty, current-1) shares; on
order success accumulate the leg P&L, mark the second leg booked, shrink
the remaining quantity and force the stop to the entry price; the source
then repeats the same state updates in its duplicated second-leg block
(lines 1384-1397), which reassigns the identical values. -/
def target2_update (p : TradeParams) (s : TradeState) (price : ℚ)
    (order_ok : Bool) : TradeState × List ℚ :=
  let current := if s.remaining_quantity ≠ 0 then s.remaining_quantity else p.quantity
  match pyTruthy p.second_target_price with
  | some tp2 =>
    if s.first_leg_booked ∧ ¬s.second_leg_booked ∧ 0 < p.second_close_qty ∧
        1 < current ∧ price_crossed p.entry_side price tp2 then
      let close_qty := min p.second_close_qty (max (current - 1) 0)
      if 0 < close_qty ∧ order_ok then
        let sA := { s with
          realized_pnl := s.realized_pnl + legPnl p.entry_side p.entry_price price close_qty
          second_leg_booked := true
          remaining_quantity := current - close_qty
          exited_qtys := s.exited_qtys ++ [close_qty]
          sl_price := p.entry_price
          sl_moved_to_entry_after_2r := true }
        -- duplicated second-leg state-update block (lines 1384-1397)
        let sB := { sA with
          second_leg_booked := true
          booked_75pct := true
          remaining_quantity := current - close_qty }
        (sB, [p.entry_price])
      else (s, [])
    else (s, [])
  | none => (s, [])

/-- The partial-booking block (bot_kite.py lines 1317-1397): when enabled,
the 1R breakeven move, then the Target 1 partial close, then the Target 2
partial close with the stage-2 breakeven lock. -/
def staged_booking_update (cfg : BotConfig) (p : TradeParams) (s : TradeState)
    (price : ℚ) (t1_order_ok t2_order_ok : Bool) : TradeState × List ℚ :=
  if ¬cfg.use_staged_booking then (s, [])
  else
    let r1 := breakeven_1r_update p s price
    let s2 := target1_update p r1.1 price t1_order_ok
    let r3 := target2_update p s2 price t2_order_ok
    (r3.1, r1.2 ++ r3.2)

/-- A full close of the remaining quantity: when the exit order succeeds the
finished trade's P&L (realized plus the final leg) is appended to
self.trades; on failure only the break happens (lines 1243-1248 and the
analogous blocks). -/
def close_final (p : TradeParams) (s : TradeState) (exit_price : ℚ)
    (exit_qty : ℤ) (order_ok : Bool) : TradeState :=
  if order_ok then
    { s with trades :=
        s.trades ++ [s.realized_pnl + legPnl p.entry_side p.entry_price exit_price exit_qty] }
  else s

/-- The closing checks at the end of a monitoring iteration (lines
1399-1491): the full profit-target close (only when partial booking is
disabled) and the stoploss check, each breaking out of the loop whether or
not the close order succeeded. -/
def closing_checks (cfg : BotConfig) (p : TradeParams) (s : TradeState)
    (price : ℚ) (final_order_ok : Bool) : TradeState × TickOutcome :=
  let exit_qty := if 0 < s.remaining_quantity then s.remaining_quantity else p.quantity
  let target_hit : Bool :=
    match pyTruthy p.target_price with
    | some tp =>
      decide (0 < exit_qty ∧ ¬cfg.use_staged_booking ∧
        ((p.entry_side = Side.buy ∧ tp ≤ price) ∨ (p.entry_side = Side.sell ∧ price ≤ tp)))
    | none => false
  if target_hit then
    (close_final p s price exit_qty final_order_ok, TickOutcome.closed)
  else if (p.entry_side = Side.buy ∧ price ≤ s.sl_price ∧ 0 < exit_qty) ∨
      (p.entry_side = Side.sell ∧ s.sl_price ≤ price ∧ 0 < exit_qty) then
    (close_final p s price exit_qty final_order_ok, TickOutcome.closed)
  else (s, TickOutcome.cont)

/-- The body run on a truthy live price (bot_kite.py lines 1288-1491):
record last_price, the ATR trailing update, the partial-booking block,
then the closing checks. -/
def price_update (cfg : BotConfig) (p : TradeParams) (s : TradeState)
    (inp : TickInput) (price : ℚ) : TickResult :=
  let s1 := { s with last_price := price }
  let r2 := atr_trailing_update cfg p s1 price inp.atr
  let r3 := staged_booking_update cfg p r2.1 price inp.t1_order_ok inp.t2_order_ok
  let r4 := closing_checks cfg p r3.1 price inp.final_order_ok
  { state := r4.1, outcome := r4.2, sl_moves := r2.2 ++ r3.2 }

/-- One iteration of the monitoring loop (bot_kite.py lines 1235-1493):
the 3:25 PM auto-exit, the daily loss limit branch, then on a truthy live
price the ATR trailing update, the partial-booking block and the closing
checks.  A falsy price skips the iteration body. -/
def monitoring_tick (cfg : BotConfig) (p : TradeParams) (s : TradeState)
    (inp : TickInput) : TickResult :=
  if inp.eod_reached then
    let exit_qty := if 0 < s.remaining_quantity then s.remaining_quantity else p.quantity
    if 0 < exit_qty then
      { state := close_final p s s.last_price exit_qty inp.final_order_ok
        outcome := TickOutcome.closed, sl_moves := [] }
    else
      { state := s, outcome := TickOutcome.closed, sl_moves := [] }
  else
    let chk := check_daily_loss_limit cfg.use_daily_loss_limit
      cfg.auto_shutdown_on_loss_limit cfg.daily_loss_limit_pct
      s.trades_today p.starting_balance p.account_balance s.should_stop
    if cfg.use_daily_loss_limit ∧ chk.can_continue = false then
      let s' := { s with should_stop := chk.should_stop }
      let exit_qty := if 0 < s'.remaining_quantity then s'.remaining_quantity else p.quantity
      if 0 < exit_qty then
        { state := close_final p s' s'.last_price exit_qty inp.final_order_ok
          outcome := TickOutcome.stopSession, sl_moves := [] }
      else
        { state := s', outcome := TickOutcome.stopSession, sl_moves := [] }
    else
      match pyTruthy inp.price with
      | none => { state := s, outcome := TickOutcome.cont, sl_moves := [] }
      | some price => price_update cfg p s inp price

/-- Boolean test that a list of rationals is non-decreasing. -/
def rat_chain_le : List ℚ → Bool
  | [] => true
  | [_] => true
  | a :: b :: rest => (decide (a ≤ b)) && rat_chain_le (b :: rest)

/-- Boolean test that a list of rationals is non-increasing. -/
def rat_chain_ge : List ℚ → Bool
  | [] => true
  | [_] => true
  | a :: b :: rest => (decide (b ≤ a)) && rat_chain_ge (b :: rest)

/-- The quantity-accounting invariant of claim C3: the remaining quantity
plus all exited leg quantities equals the initial quantity, and at least
one share remains while the loop runs. -/
def trade_inv (p : TradeParams) (s : TradeState) : Prop :=
  s.remaining_quantity + s.exited_qtys.sum = p.quantity ∧ 1 ≤ s.remaining_quantity

/-! ## Signal evaluation and retest handling, bot_kite.py lines 865-1086 -/

/-- The entry-window state set each scanning iteration
(bot_kite.py lines 875-887): before 10:15 PRIMARY, from 10:15 to before
10:45 SOFT; at 10:45 or later the loop breaks before evaluating any
symbol, which none models. -/
inductive WindowState where
  | primary
  | soft
deriving DecidableEq, Repr

/-- Window classification of the integer clock value hour*100+minute. -/
def entry_window_of_time (current_time_int : ℤ) : Option WindowState :=
  if 1045 ≤ current_time_int then none
  else if current_time_int < 1015 then some WindowState.primary
  else some WindowState.soft

/-- A pending-retest record pending_retests[symbol]
(bot_kite.py lines 1014-1019, 1065-1070). -/
structure RetestState where
  side : Side
  trigger : ℚ
  last_candle_time : ℤ
  candles_waited : ℤ
deriving DecidableEq, Repr

/-- Configuration consulted by the per-symbol signal evaluation. -/
structure SignalConfig where
  use_retest_entry : Bool
  retest_max_candles : ℤ
  retest_zone_pct : ℚ
  use_volume_filter : Bool
  use_trend_filter : Bool
  use_liquidity_filter : Bool
deriving DecidableEq, Repr

/-- Inputs to the per-symbol evaluation for one candle: the locked setup
values, the latest 5-minute candle, and the outcomes of the helper filter
calls (volume confirmation, NIFTY bias blocking, trend alignment,
liquidity) treated as oracles. -/
structure SymbolInputs where
  vwap : ℚ
  long_trigger : ℚ
  short_trigger : ℚ
  c5 : ℚ
  h5 : ℚ
  l5 : ℚ
  candle_time : ℤ
  volume_confirmed : Bool
  bias_blocking_buy : Bool
  bias_blocking_sell : Bool
  trend_aligned_buy : Bool
  trend_aligned_sell : Bool
  liquidity_ok : Bool
deriving DecidableEq, Repr

/-- Decision for one symbol in one scanning iteration: either skip to the
next symbol carrying the updated pending-retest record, or fire an entry
signal at the given side and price. -/
inductive SymbolDecision where
  | skip (pending : Option RetestState)
  | fire (side : Side) (entry_price : ℚ) (pending : Option RetestState)
deriving DecidableEq, Repr

/-- Bias blocking / trend alignment oracles selected by side. -/
def bias_blocking (inp : SymbolInputs) : Side → Bool
  | Side.buy => inp.bias_blocking_buy
  | Side.sell => inp.bias_blocking_sell

/-- Trend-alignment oracle selected by side. -/
def trend_aligned (inp : SymbolInputs) : Side → Bool
  | Side.buy => inp.trend_aligned_buy
  | Side.sell => inp.trend_aligned_sell

/-- Embedding of the per-symbol signal evaluation of one scanning
iteration (bot_kite.py lines 929-1086): the pending-retest handling with
its timestamp dedup, wait counter and zone test, then the long and short
breakout branches with the soft-window volume gate, the NIFTY bias block,
the trend filter, the liquidity filter and the optional conversion of the
breakout into a new pending-retest record. -/
def evaluate_symbol (cfg : SignalConfig) (window : WindowState)
    (pending : Option RetestState) (inp : SymbolInputs) : SymbolDecision :=
  match cfg.use_retest_entry, pending with
  | true, some st =>
    -- Retest handling (lines 929-983)
    if inp.candle_time = st.last_candle_time then
      SymbolDecision.skip (some st)
    else
      let st := { st with last_candle_time := inp.candle_time,
                          candles_waited := st.candles_waited + 1 }
      if cfg.retest_max_candles < st.candles_waited then
        SymbolDecision.skip none
      else
        let zone_pct := cfg.retest_zone_pct / 100
        let zone_low := st.trigger * (1 - zone_pct)
        let zone_high := st.trigger * (1 + zone_pct)
        let retest_ok : Bool :=
          match st.side with
          | Side.buy => decide (inp.l5 ≤ zone_high ∧ zone_low ≤ inp.h5 ∧
              st.trigger < inp.c5 ∧ inp.vwap < inp.c5)
          | Side.sell => decide (zone_low ≤ inp.h5 ∧ inp.l5 ≤ zone_high ∧
              inp.c5 < st.trigger ∧ inp.c5 < inp.vwap)
        if ¬retest_ok then SymbolDecision.skip (some st)
        else if cfg.use_volume_filter ∧ ¬inp.volume_confirmed then
          SymbolDecision.skip (some st)
        else if bias_blocking inp st.side then SymbolDecision.skip (some st)
        else if cfg.use_trend_filter ∧ ¬trend_aligned inp st.side then
          SymbolDecision.skip (some st)
        else if cfg.use_liquidity_filter ∧ ¬inp.liquidity_ok then
          SymbolDecision.skip (some st)
        else SymbolDecision.fire st.side inp.c5 none
  | _, _ =>
    -- Long breakout branch (lines 985-1035)
    if inp.long_trigger < inp.c5 ∧ inp.vwap < inp.c5 then
      if window = WindowState.soft ∧ ¬inp.volume_confirmed then
        SymbolDecision.skip pending
      else if inp.bias_blocking_buy then SymbolDecision.skip pending
      else if cfg.use_trend_filter ∧ ¬inp.trend_aligned_buy then
        SymbolDecision.skip pending
      else if cfg.use_liquidity_filter ∧ ¬inp.liquidity_ok then
        SymbolDecision.skip pending
      else if cfg.use_retest_entry then
        SymbolDecision.skip (some
          { side := Side.buy, trigger := inp.long_trigger,
            last_candle_time := inp.candle_time, candles_waited := 0 })
      else SymbolDecision.fire Side.buy inp.c5 pending
    -- Short breakout branch (lines 1037-1086)
    else if inp.c5 < inp.short_trigger ∧ inp.c5 < inp.vwap then
      if window = WindowState.soft ∧ ¬inp.volume_confirmed then
        SymbolDecision.skip pending
      else if inp.bias_blocking_sell then SymbolDecision.skip pending
      else if cfg.use_trend_filter ∧ ¬inp.trend_aligned_sell then
        SymbolDecision.skip pending
      else if cfg.use_liquidity_filter ∧ ¬inp.liquidity_ok then
        SymbolDecision.skip pending
      else if cfg.use_retest_entry then
        SymbolDecision.skip (some
          { side := Side.sell, trigger := inp.short_trigger,
            last_candle_time := inp.candle_time, candles_waited := 0 })
      else SymbolDecision.fire Side.sell inp.c5 pending
    else SymbolDecision.skip pending

/-! ## Helper lemmas -/

theorem atr_trailing_update_eq (cfg : BotConfig) (p : TradeParams) (s : TradeState)
    (price : ℚ) (atr : Option ℚ) :
    ∃ sl, (atr_trailing_update cfg p s price atr).1 = { s with sl_price := sl } := by
  unfold atr_trailing_update
  split
  · split
    · match atr with
      | none => exact ⟨s.sl_price, rfl⟩
      | some a =>
        simp only
        split
        · match hs : p.entry_side with
          | Side.buy =>
            simp only
            split
            · exact ⟨_, rfl⟩
            · exact ⟨s.sl_price, rfl⟩
          | Side.sell =>
            simp only
            split
            · exact ⟨_, rfl⟩
            · exact ⟨s.sl_price, rfl⟩
        · exact ⟨s.sl_price, rfl⟩
    · exact ⟨s.sl_price, rfl⟩
  · exact ⟨s.sl_price, rfl⟩

theorem close_final_eq (p : TradeParams) (s : TradeState) (exit_price : ℚ)
    (exit_qty : ℤ) (ok : Bool) :
    ∃ tr, close_final p s exit_price exit_qty ok = { s with trades := tr } ∧
      (tr = s.trades ∨ ∃ x, tr = s.trades ++ [x]) := by
  unfold close_final
  split
  · exact ⟨_, rfl, Or.inr ⟨_, rfl⟩⟩
  · exact ⟨s.trades, rfl, Or.inl rfl⟩

theorem closing_checks_eq (cfg : BotConfig) (p : TradeParams) (s : TradeState)
    (price : ℚ) (ok : Bool) :
    (∃ tr, (closing_checks cfg p s price ok).1 = { s with trades := tr } ∧
      (tr = s.trades ∨ ∃ x, tr = s.trades ++ [x])) ∧
    (closing_checks cfg p s price ok).2 ≠ TickOutcome.stopSession := by
  unfold closing_checks
  constructor
  · dsimp only
    repeat' split
    all_goals first
      | exact close_final_eq p s price _ ok
      | exact ⟨s.trades, rfl, Or.inl rfl⟩
  · dsimp only
    repeat' split
    all_goals simp

theorem breakeven_1r_preserves (p : TradeParams) (s : TradeState) (price : ℚ) :
    (breakeven_1r_update p s price).1.last_price = s.last_price ∧
    (breakeven_1r_update p s price).1.first_leg_booked = s.first_leg_booked ∧
    (breakeven_1r_update p s price).1.second_leg_booked = s.second_leg_booked ∧
    (breakeven_1r_update p s price).1.booked_75pct = s.booked_75pct ∧
    (breakeven_1r_update p s price).1.remaining_quantity = s.remaining_quantity ∧
    (breakeven_1r_update p s price).1.realized_pnl = s.realized_pnl ∧
    (breakeven_1r_update p s price).1.exited_qtys = s.exited_qtys ∧
    (breakeven_1r_update p s price).1.trades = s.trades ∧
    (breakeven_1r_update p s price).1.trades_today = s.trades_today ∧
    (breakeven_1r_update p s price).1.should_stop = s.should_stop := by
  unfold breakeven_1r_update
  dsimp only
  repeat' split
  all_goals simp

theorem breakeven_1r_sl (p : TradeParams) (s : TradeState) (price : ℚ) :
    ((breakeven_1r_update p s price).2 = [] ∧
      (breakeven_1r_update p s price).1.sl_price = s.sl_price) ∨
    ((breakeven_1r_update p s price).2 = [p.entry_price] ∧
      (breakeven_1r_update p s price).1.sl_price = p.entry_price) := by
  unfold breakeven_1r_update
  dsimp only
  repeat' split
  all_goals first
    | exact Or.inr ⟨rfl, rfl⟩
    | exact Or.inl ⟨rfl, rfl⟩

theorem target1_preserves (p : TradeParams) (s : TradeState) (price : ℚ)
    (ok : Bool) :
    (target1_update p s price ok).sl_price = s.sl_price ∧
    (target1_update p s price ok).last_price = s.last_price ∧
    (target1_update p s price ok).sl_moved_to_breakeven = s.sl_moved_to_breakeven ∧
    (target1_update p s price ok).sl_moved_to_entry_after_2r = s.sl_moved_to_entry_after_2r ∧
    (target1_update p s price ok).second_leg_booked = s.second_leg_booked ∧
    (target1_update p s price ok).booked_75pct = s.booked_75pct ∧
    (target1_update p s price ok).trades = s.trades ∧
    (target1_update p s price ok).trades_today = s.trades_today ∧
    (target1_update p s price ok).should_stop = s.should_stop := by
  unfold target1_update
  dsimp only
  repeat' split
  all_goals simp

theorem target2_preserves (p : TradeParams) (s : TradeState) (price : ℚ)
    (ok : Bool) :
    (target2_update p s price ok).1.last_price = s.last_price ∧
    (target2_update p s price ok).1.sl_moved_to_breakeven = s.sl_moved_to_breakeven ∧
    (target2_update p s price ok).1.first_leg_booked = s.first_leg_booked ∧
    (target2_update p s price ok).1.trades = s.trades ∧
    (target2_update p s price ok).1.trades_today = s.trades_today ∧
    (target2_update p s price ok).1.should_stop = s.should_stop := by
  unfold target2_update
  dsimp only
  repeat' split
  all_goals simp

theorem target2_sl_second (p : TradeParams) (s : TradeState) (price : ℚ)
    (ok : Bool) :
    ((target2_update p s price ok).2 = [] ∧
      (target2_update p s price ok).1.sl_price = s.sl_price ∧
      (target2_update p s price ok).1.second_leg_booked = s.second_leg_booked) ∨
    ((target2_update p s price ok).2 = [p.entry_price] ∧
      (target2_update p s price ok).1.sl_price = p.entry_price ∧
      (target2_update p s price ok).1.second_leg_booked = true ∧
      s.second_leg_booked = false) := by
  unfold target2_update
  dsimp only
  repeat' split
  all_goals simp_all

theorem target1_inv (p : TradeParams) (s : TradeState) (price : ℚ) (ok : Bool)
    (h : trade_inv p s) : trade_inv p (target1_update p s price ok) := by
  obtain ⟨hsum, hrem⟩ := h
  unfold trade_inv
  unfold target1_update
  dsimp only
  repeat' split
  all_goals simp_all [List.sum_append]
  all_goals omega

theorem target2_inv (p : TradeParams) (s : TradeState) (price : ℚ) (ok : Bool)
    (h : trade_inv p s) : trade_inv p (target2_update p s price ok).1 := by
  obtain ⟨hsum, hrem⟩ := h
  unfold trade_inv
  unfold target2_update
  dsimp only
  repeat' split
  all_goals simp_all [List.sum_append]
  all_goals omega

theorem breakeven_1r_inv (p : TradeParams) (s : TradeState) (price : ℚ)
    (h : trade_inv p s) : trade_inv p (breakeven_1r_update p s price).1 := by
  obtain ⟨_, _, _, _, h5, _, h7, _, _, _⟩ := breakeven_1r_preserves p s price
  exact ⟨by rw [h5, h7]; exact h.1, by rw [h5]; exact h.2⟩

theorem staged_booking_inv (cfg : BotConfig) (p : TradeParams) (s : TradeState)
    (price : ℚ) (t1 t2 : Bool) (h : trade_inv p s) :
    trade_inv p (staged_booking_update cfg p s price t1 t2).1 := by
  unfold staged_booking_update
  dsimp only
  split
  · exact h
  · exact target2_inv _ _ _ _ (target1_inv _ _ _ _ (breakeven_1r_inv _ _ _ h))

theorem staged_booking_shape (cfg : BotConfig) (p : TradeParams) (s : TradeState)
    (price : ℚ) (t1 t2 : Bool) :
    (staged_booking_update cfg p s price t1 t2).1.trades = s.trades ∧
    (staged_booking_update cfg p s price t1 t2).1.trades_today = s.trades_today ∧
    (((staged_booking_update cfg p s price t1 t2).2 = [] ∧
        (staged_booking_update cfg p s price t1 t2).1.sl_price = s.sl_price) ∨
      (((staged_booking_update cfg p s price t1 t2).2 = [p.entry_price] ∨
        (staged_booking_update cfg p s price t1 t2).2 = [p.entry_price, p.entry_price]) ∧
        (staged_booking_update cfg p s price t1 t2).1.sl_price = p.entry_price)) ∧
    ((staged_booking_update cfg p s price t1 t2).1.second_leg_booked = s.second_leg_booked ∨
      (s.second_leg_booked = false ∧
        (staged_booking_update cfg p s price t1 t2).1.second_leg_booked = true ∧
        (staged_booking_update cfg p s price t1 t2).1.sl_price = p.entry_price)) := by
  unfold staged_booking_update
  dsimp only
  split
  · simp
  · obtain ⟨_, _, b3, _, _, _, _, b8, b9, _⟩ := breakeven_1r_preserves p s price
    obtain ⟨u1, _, _, _, u5, _, u7, u8, _⟩ :=
      target1_preserves p (breakeven_1r_update p s price).1 price t1
    obtain ⟨_, _, _, v4, v5, _⟩ :=
      target2_preserves p (target1_update p (breakeven_1r_update p s price).1 price t1) price t2
    refine ⟨by rw [v4, u7, b8], by rw [v5, u8, b9], ?_, ?_⟩
    · obtain ⟨hbe2, hbesl⟩ | ⟨hbe2, hbesl⟩ := breakeven_1r_sl p s price <;>
        obtain ⟨ht2, htsl, _⟩ | ⟨ht2, htsl, _, _⟩ :=
          target2_sl_second p (target1_update p (breakeven_1r_update p s price).1 price t1) price t2
      · exact Or.inl ⟨by simp [hbe2, ht2], by rw [htsl, u1, hbesl]⟩
      · exact Or.inr ⟨Or.inl (by simp [hbe2, ht2]), htsl⟩
      · exact Or.inr ⟨Or.inl (by simp [hbe2, ht2]), by rw [htsl, u1, hbesl]⟩
      · exact Or.inr ⟨Or.inr (by simp [hbe2, ht2]), htsl⟩
    · obtain ⟨_, _, ht2nd⟩ | ⟨_, htsl, ht2nd, htpre⟩ :=
        target2_sl_second p (target1_update p (breakeven_1r_update p s price).1 price t1) price t2
      · exact Or.inl (by rw [ht2nd, u5, b3])
      · exact Or.inr ⟨by rw [u5, b3] at htpre; exact htpre, ht2nd, htsl⟩

theorem atr_trail_buy_ratchet (cfg : BotConfig) (p : TradeParams) (s : TradeState)
    (price : ℚ) (atr : Option ℚ) (hside : p.entry_side = Side.buy) :
    ((atr_trailing_update cfg p s price atr).2 = [] ∧
      (atr_trailing_update cfg p s price atr).1.sl_price = s.sl_price) ∨
    ((atr_trailing_update cfg p s price atr).2 =
        [(atr_trailing_update cfg p s price atr).1.sl_price] ∧
      s.sl_price < (atr_trailing_update cfg p s price atr).1.sl_price) := by
  unfold atr_trailing_update
  rw [hside]
  dsimp only
  repeat' split
  all_goals simp_all

theorem atr_trail_sell_ratchet (cfg : BotConfig) (p : TradeParams) (s : TradeState)
    (price : ℚ) (atr : Option ℚ) (hside : p.entry_side = Side.sell) :
    ((atr_trailing_update cfg p s price atr).2 = [] ∧
      (atr_trailing_update cfg p s price atr).1.sl_price = s.sl_price) ∨
    ((atr_trailing_update cfg p s price atr).2 =
        [(atr_trailing_update cfg p s price atr).1.sl_price] ∧
      (atr_trailing_update cfg p s price atr).1.sl_price < s.sl_price) := by
  unfold atr_trailing_update
  rw [hside]
  dsimp only
  repeat' split
  all_goals simp_all

theorem monitoring_tick_early_or_price (cfg : BotConfig) (p : TradeParams)
    (s : TradeState) (inp : TickInput) :
    ((monitoring_tick cfg p s inp).sl_moves = [] ∧
      (monitoring_tick cfg p s inp).state.sl_price = s.sl_price ∧
      (monitoring_tick cfg p s inp).state.second_leg_booked = s.second_leg_booked ∧
      (monitoring_tick cfg p s inp).state.remaining_quantity = s.remaining_quantity ∧
      (monitoring_tick cfg p s inp).state.exited_qtys = s.exited_qtys ∧
      (monitoring_tick cfg p s inp).state.trades_today = s.trades_today ∧
      ((monitoring_tick cfg p s inp).state.trades = s.trades ∨
        ∃ x, (monitoring_tick cfg p s inp).state.trades = s.trades ++ [x])) ∨
    (∃ price, pyTruthy inp.price = some price ∧
      monitoring_tick cfg p s inp = price_update cfg p s inp price) := by
  unfold monitoring_tick
  dsimp only
  repeat' split
  all_goals first
    | (rename_i price heq
       exact Or.inr ⟨price, heq, rfl⟩)
    | exact Or.inl ⟨rfl, rfl, rfl, rfl, rfl, rfl, Or.inl rfl⟩
    | (refine Or.inl ⟨rfl, ?_⟩
       unfold close_final
       split
       · exact ⟨rfl, rfl, rfl, rfl, rfl, Or.inr ⟨_, rfl⟩⟩
       · exact ⟨rfl, rfl, rfl, rfl, rfl, Or.inl rfl⟩)

theorem atr_trail_shape (cfg : BotConfig) (p : TradeParams) (s : TradeState)
    (price : ℚ) (atr : Option ℚ) :
    ((atr_trailing_update cfg p s price atr).2 = [] ∧
      (atr_trailing_update cfg p s price atr).1.sl_price = s.sl_price) ∨
    (atr_trailing_update cfg p s price atr).2 =
      [(atr_trailing_update cfg p s price atr).1.sl_price] := by
  unfold atr_trailing_update
  dsimp only
  repeat' split
  all_goals simp_all

theorem price_update_inv (cfg : BotConfig) (p : TradeParams) (s : TradeState)
    (inp : TickInput) (price : ℚ) (h : trade_inv p s) :
    trade_inv p (price_update cfg p s inp price).state := by
  unfold price_update
  dsimp only
  obtain ⟨tr, heq, _⟩ := (closing_checks_eq cfg p
    (staged_booking_update cfg p
      (atr_trailing_update cfg p { s with last_price := price } price inp.atr).1
      price inp.t1_order_ok inp.t2_order_ok).1 price inp.final_order_ok).1
  rw [heq]
  have hinv2 : trade_inv p
      (atr_trailing_update cfg p { s with last_price := price } price inp.atr).1 := by
    obtain ⟨sl, hsl⟩ := atr_trailing_update_eq cfg p { s with last_price := price } price inp.atr
    rw [hsl]
    exact ⟨h.1, h.2⟩
  have h3 := staged_booking_inv cfg p
    (atr_trailing_update cfg p { s with last_price := price } price inp.atr).1
    price inp.t1_order_ok inp.t2_order_ok hinv2
  exact ⟨h3.1, h3.2⟩

theorem price_update_sl_last (cfg : BotConfig) (p : TradeParams) (s : TradeState)
    (inp : TickInput) (price : ℚ) :
    (price_update cfg p s inp price).state.sl_price =
      (price_update cfg p s inp price).sl_moves.getLastD s.sl_price := by
  unfold price_update
  dsimp only
  obtain ⟨tr, heq, _⟩ := (closing_checks_eq cfg p
    (staged_booking_update cfg p
      (atr_trailing_update cfg p { s with last_price := price } price inp.atr).1
      price inp.t1_order_ok inp.t2_order_ok).1 price inp.final_order_ok).1
  rw [heq]
  obtain ⟨_, _, hsl, _⟩ := staged_booking_shape cfg p
    (atr_trailing_update cfg p { s with last_price := price } price inp.atr).1
    price inp.t1_order_ok inp.t2_order_ok
  obtain ⟨hA2, hA1⟩ | hA2 := atr_trail_shape cfg p { s with last_price := price } price inp.atr
  · obtain ⟨hB2, hB1⟩ | ⟨hB2 | hB2, hB1⟩ := hsl
    · simp [hA2, hB2, hB1, hA1]
    · simp [hA2, hB2, hB1]
    · simp [hA2, hB2, hB1]
  · obtain ⟨hB2, hB1⟩ | ⟨hB2 | hB2, hB1⟩ := hsl
    · simp [hA2, hB2, hB1]
    · simp [hA2, hB2, hB1]
    · simp [hA2, hB2, hB1]

theorem price_update_second (cfg : BotConfig) (p : TradeParams) (s : TradeState)
    (inp : TickInput) (price : ℚ)
    (hpre : s.second_leg_booked = false)
    (hpost : (price_update cfg p s inp price).state.second_leg_booked = true) :
    (price_update cfg p s inp price).state.sl_price = p.entry_price := by
  unfold price_update at hpost ⊢
  dsimp only at hpost ⊢
  obtain ⟨tr, heq, _⟩ := (closing_checks_eq cfg p
    (staged_booking_update cfg p
      (atr_trailing_update cfg p { s with last_price := price } price inp.atr).1
      price inp.t1_order_ok inp.t2_order_ok).1 price inp.final_order_ok).1
  rw [heq] at hpost ⊢
  obtain ⟨sl, hsl⟩ := atr_trailing_update_eq cfg p { s with last_price := price } price inp.atr
  obtain ⟨_, _, _, hsecond⟩ := staged_booking_shape cfg p
    (atr_trailing_update cfg p { s with last_price := price } price inp.atr).1
    price inp.t1_order_ok inp.t2_order_ok
  obtain hsame | ⟨_, _, hlock⟩ := hsecond
  · exfalso
    have hb : (staged_booking_update cfg p
        (atr_trailing_update cfg p { s with last_price := price } price inp.atr).1
        price inp.t1_order_ok inp.t2_order_ok).1.second_leg_booked = true := hpost
    rw [hsame, hsl] at hb
    simp [hpre] at hb
  · exact hlock

theorem price_update_session_lists (cfg : BotConfig) (p : TradeParams)
    (s : TradeState) (inp : TickInput) (price : ℚ) :
    (price_update cfg p s inp price).state.trades_today = s.trades_today ∧
    ((price_update cfg p s inp price).state.trades = s.trades ∨
      ∃ x, (price_update cfg p s inp price).state.trades = s.trades ++ [x]) ∧
    (price_update cfg p s inp price).outcome ≠ TickOutcome.stopSession := by
  unfold price_update
  dsimp only
  obtain ⟨⟨tr, heq, hor⟩, hout⟩ := closing_checks_eq cfg p
    (staged_booking_update cfg p
      (atr_trailing_update cfg p { s with last_price := price } price inp.atr).1
      price inp.t1_order_ok inp.t2_order_ok).1 price inp.final_order_ok
  rw [heq]
  obtain ⟨sl, hsl⟩ := atr_trailing_update_eq cfg p { s with last_price := price } price inp.atr
  obtain ⟨htr, htt, _, _⟩ := staged_booking_shape cfg p
    (atr_trailing_update cfg p { s with last_price := price } price inp.atr).1
    price inp.t1_order_ok inp.t2_order_ok
  have hXtt : (atr_trailing_update cfg p { s with last_price := price } price inp.atr).1.trades_today
      = s.trades_today := by rw [hsl]
  have hXtr : (atr_trailing_update cfg p { s with last_price := price } price inp.atr).1.trades
      = s.trades := by rw [hsl]
  refine ⟨htt.trans hXtt, ?_, hout⟩
  obtain hsame | ⟨x, hx⟩ := hor
  · exact Or.inl (hsame.trans (htr.trans hXtr))
  · exact Or.inr ⟨x, by rw [hx, htr, hXtr]⟩

theorem price_update_chain_buy (cfg : BotConfig) (p : TradeParams) (s : TradeState)
    (inp : TickInput) (price : ℚ) (hside : p.entry_side = Side.buy) :
    rat_chain_le ((s.sl_price :: (price_update cfg p s inp price).sl_moves).map
      (fun x => min x p.entry_price)) = true := by
  unfold price_update
  dsimp only
  obtain ⟨_, _, hsl, _⟩ := staged_booking_shape cfg p
    (atr_trailing_update cfg p { s with last_price := price } price inp.atr).1
    price inp.t1_order_ok inp.t2_order_ok
  obtain ⟨hA2, hA1⟩ | ⟨hA2, hAlt⟩ :=
    atr_trail_buy_ratchet cfg p { s with last_price := price } price inp.atr hside
  · obtain ⟨hB2, hB1⟩ | ⟨hB2 | hB2, hB1⟩ := hsl
    · simp [hA2, hB2, rat_chain_le]
    · simp [hA2, hB2, rat_chain_le, min_self, min_le_right]
    · simp [hA2, hB2, rat_chain_le, min_self, min_le_right]
  · obtain ⟨hB2, hB1⟩ | ⟨hB2 | hB2, hB1⟩ := hsl
    · simp only [hA2, hB2, List.append_nil, List.map, rat_chain_le, Bool.and_eq_true,
        decide_eq_true_eq]
      exact ⟨min_le_min (le_of_lt hAlt) le_rfl, trivial⟩
    · simp only [hA2, hB2, List.cons_append, List.singleton_append, List.map, rat_chain_le,
        Bool.and_eq_true, decide_eq_true_eq, min_self]
      exact ⟨min_le_min (le_of_lt hAlt) le_rfl, min_le_right _ _, trivial⟩
    · simp only [hA2, hB2, List.cons_append, List.singleton_append, List.map, rat_chain_le,
        Bool.and_eq_true, decide_eq_true_eq, min_self]
      exact ⟨min_le_min (le_of_lt hAlt) le_rfl, min_le_right _ _, le_refl _, trivial⟩

theorem price_update_chain_sell (cfg : BotConfig) (p : TradeParams) (s : TradeState)
    (inp : TickInput) (price : ℚ) (hside : p.entry_side = Side.sell) :
    rat_chain_ge ((s.sl_price :: (price_update cfg p s inp price).sl_moves).map
      (fun x => max x p.entry_price)) = true := by
  unfold price_update
  dsimp only
  obtain ⟨_, _, hsl, _⟩ := staged_booking_shape cfg p
    (atr_trailing_update cfg p { s with last_price := price } price inp.atr).1
    price inp.t1_order_ok inp.t2_order_ok
  obtain ⟨hA2, hA1⟩ | ⟨hA2, hAlt⟩ :=
    atr_trail_sell_ratchet cfg p { s with last_price := price } price inp.atr hside
  · obtain ⟨hB2, hB1⟩ | ⟨hB2 | hB2, hB1⟩ := hsl
    · simp [hA2, hB2, rat_chain_ge]
    · simp [hA2, hB2, rat_chain_ge, max_self, le_max_right]
    · simp [hA2, hB2, rat_chain_ge, max_self, le_max_right]
  · obtain ⟨hB2, hB1⟩ | ⟨hB2 | hB2, hB1⟩ := hsl
    · simp only [hA2, hB2, List.append_nil, List.map, rat_chain_ge, Bool.and_eq_true,
        decide_eq_true_eq]
      exact ⟨max_le_max (le_of_lt hAlt) le_rfl, trivial⟩
    · simp only [hA2, hB2, List.cons_append, List.singleton_append, List.map, rat_chain_ge,
        Bool.and_eq_true, decide_eq_true_eq, max_self]
      exact ⟨max_le_max (le_of_lt hAlt) le_rfl, le_max_right _ _, trivial⟩
    · simp only [hA2, hB2, List.cons_append, List.singleton_append, List.map, rat_chain_ge,
        Bool.and_eq_true, decide_eq_true_eq, max_self]
      exact ⟨max_le_max (le_of_lt hAlt) le_rfl, le_max_right _ _, le_refl _, trivial⟩

theorem pytrunc_nonpos {q : ℚ} (h : q ≤ 0) : pytrunc q ≤ 0 := by
  unfold pytrunc
  split
  · exact Int.ceil_le.mpr (by exact_mod_cast h)
  · exact Int.floor_nonpos h

theorem pytrunc_eq_floor {q : ℚ} (h : 0 ≤ q) : pytrunc q = ⌊q⌋ := by
  unfold pytrunc
  rw [if_neg (not_lt.mpr h)]

/-! ## The claims -/

/-- C6 counterexample: the computed long stop is not the tighter (closer to
entry) of VWAP and (candle low minus buffer).  With VWAP 100, candle low
95.05 and buffer 0.05 (candidates 100 and 95, entry 101 above both),
calculate_dynamic_sl returns 95, while the tighter of the two candidates
is 100. -/
theorem C6_initial_stop_counterexample :
    calculate_dynamic_sl Side.buy 100 0 (1901/20) (1/20) = 95 ∧
    tighter_to_entry 101 100 ((1901/20) - 1/20) = 100 ∧
    calculate_dynamic_sl Side.buy 100 0 (1901/20) (1/20) ≠
      tighter_to_entry 101 100 ((1901/20) - 1/20) := by
  have h1 : calculate_dynamic_sl Side.buy 100 0 (1901/20) (1/20) = 95 := by
    norm_num [calculate_dynamic_sl, min_def]
  have h2 : tighter_to_entry 101 100 ((1901/20) - 1/20) = 100 := by
    norm_num [tighter_to_entry]
  refine ⟨h1, h2, by rw [h1, h2]; norm_num⟩

/-- C6 (amended): for a long entry the computed initial stop is the lower
of VWAP and (candle low minus buffer) — which, whenever both candidates lie
at or below the entry price, is the one farther from the entry, not the
tighter one; symmetrically, for a short it is the higher of VWAP and
(candle high plus buffer), the farther above the entry. -/
theorem C6_initial_stop_amended (vwap h5 l5 buffer entry : ℚ) :
    calculate_dynamic_sl Side.buy vwap h5 l5 buffer = min (l5 - buffer) vwap ∧
    calculate_dynamic_sl Side.sell vwap h5 l5 buffer = max (h5 + buffer) vwap ∧
    (l5 - buffer ≤ entry → vwap ≤ entry →
      entry - calculate_dynamic_sl Side.buy vwap h5 l5 buffer =
        max (entry - (l5 - buffer)) (entry - vwap)) ∧
    (entry ≤ h5 + buffer → entry ≤ vwap →
      calculate_dynamic_sl Side.sell vwap h5 l5 buffer - entry =
        max ((h5 + buffer) - entry) (vwap - entry)) := by
  refine ⟨rfl, rfl, ?_, ?_⟩
  · intro _ _
    unfold calculate_dynamic_sl
    dsimp only
    rcases le_total (l5 - buffer) vwap with h | h
    · rw [min_eq_left h,
        max_eq_left (by linarith : entry - vwap ≤ entry - (l5 - buffer))]
    · rw [min_eq_right h,
        max_eq_right (by linarith : entry - (l5 - buffer) ≤ entry - vwap)]
  · intro _ _
    unfold calculate_dynamic_sl
    dsimp only
    rcases le_total (h5 + buffer) vwap with h | h
    · rw [max_eq_right h,
        max_eq_right (by linarith : h5 + buffer - entry ≤ vwap - entry)]
    · rw [max_eq_left h,
        max_eq_left (by linarith : vwap - entry ≤ h5 + buffer - entry)]

/-- C6 witness for the amended theorem, at the counterexample's inputs:
entry 101, VWAP 100, low-buffer 95, so the stop lands at the farther
candidate, distance 6 from entry. -/
theorem C6_initial_stop_amended_witness :
    (101 : ℚ) - calculate_dynamic_sl Side.buy 100 0 (1901/20) (1/20) =
      max ((101 : ℚ) - ((1901/20) - 1/20)) (101 - 100) :=
  (C6_initial_stop_amended 100 0 (1901/20) (1/20) 101).2.2.1
    (by norm_num) (by norm_num)

/-- C7: the position-sizing quantity is the floor of
balance * utilization * leverageFactor / price, with leverageFactor 1 when
leverage-in-sizing is disabled; the function returns 0 whenever the balance
is non-positive, the price is non-positive, or the floored quantity is
below 1; and at balance 50000, price 1500, utilization 0.5, leverage 5,
the quantity is exactly 83.  (Utilization is assumed non-negative and the
leverage positive, as the configuration values are.) -/
theorem C7_position_sizing (balance utilization leverage price : ℚ)
    (use_lev : Bool) (hu : 0 ≤ utilization) (hl : 0 < leverage) :
    (balance ≤ 0 →
      calculate_dynamic_quantity balance utilization use_lev leverage price = 0) ∧
    (price ≤ 0 →
      calculate_dynamic_quantity balance utilization use_lev leverage price = 0) ∧
    (0 < balance → 0 < price →
      (⌊balance * utilization * (if use_lev then leverage else 1) / price⌋ < 1 →
        calculate_dynamic_quantity balance utilization use_lev leverage price = 0) ∧
      (1 ≤ ⌊balance * utilization * (if use_lev then leverage else 1) / price⌋ →
        calculate_dynamic_quantity balance utilization use_lev leverage price =
          ⌊balance * utilization * (if use_lev then leverage else 1) / price⌋)) ∧
    calculate_dynamic_quantity 50000 (1/2) true 5 1500 = 83 := by
  have hlf : (0 : ℚ) < (if use_lev then leverage else 1) := by
    split
    · exact hl
    · exact one_pos
  refine ⟨?_, ?_, ?_, by norm_num [calculate_dynamic_quantity, pytrunc]⟩
  · intro hb
    unfold calculate_dynamic_quantity
    rw [if_pos hb]
  · intro hp
    unfold calculate_dynamic_quantity
    by_cases hb : balance ≤ 0
    · rw [if_pos hb]
    · rw [if_neg hb]
      by_cases hp0 : price = 0
      · rw [if_pos hp0]
      · rw [if_neg hp0]
        dsimp only
        have hcap : 0 ≤ balance * utilization * (if use_lev then leverage else 1) :=
          mul_nonneg (mul_nonneg (le_of_lt (lt_of_not_le hb)) hu) (le_of_lt hlf)
        have hq : balance * utilization * (if use_lev then leverage else 1) / price ≤ 0 :=
          div_nonpos_of_nonneg_of_nonpos hcap hp
        rw [if_pos (lt_of_le_of_lt (pytrunc_nonpos hq) one_pos)]
  · intro hb hp
    unfold calculate_dynamic_quantity
    rw [if_neg (not_le.mpr hb), if_neg (ne_of_gt hp)]
    dsimp only
    have hcap : 0 ≤ balance * utilization * (if use_lev then leverage else 1) :=
      mul_nonneg (mul_nonneg (le_of_lt hb) hu) (le_of_lt hlf)
    have hq : 0 ≤ balance * utilization * (if use_lev then leverage else 1) / price :=
      div_nonneg hcap (le_of_lt hp)
    rw [pytrunc_eq_floor hq]
    constructor
    · intro hlt
      rw [if_pos hlt]
    · intro hge
      rw [if_neg (not_lt.mpr hge)]

/-- C7 witness: the concrete sizing check of the specification,
floor(50000 * 0.5 * 5 / 1500) = 83. -/
theorem C7_position_sizing_witness :
    calculate_dynamic_quantity 50000 (1/2) true 5 1500 = 83 :=
  (C7_position_sizing 50000 (1/2) 5 1500 true (by norm_num) (by norm_num)).2.2.2

/-- C8: for 0 <= factor < 1, the returned stop lies at distance
factor * (entry - stop distance) from the entry price, on the stop side of
the entry (below for a long, above for a short); for factor >= 1 the stop
is unchanged; and at entry 1500, stop 1425, factor 0.5, the result is
1462.5. -/
theorem C8_distance_factor (entry_price sl_price factor : ℚ) (side : Side) :
    (0 ≤ factor → factor < 1 →
      |entry_price - apply_stoploss_distance_factor entry_price sl_price side factor| =
        factor * |entry_price - sl_price| ∧
      (side = Side.buy →
        apply_stoploss_distance_factor entry_price sl_price side factor ≤ entry_price) ∧
      (side = Side.sell →
        entry_price ≤ apply_stoploss_distance_factor entry_price sl_price side factor)) ∧
    (1 ≤ factor →
      apply_stoploss_distance_factor entry_price sl_price side factor = sl_price) ∧
    apply_stoploss_distance_factor 1500 1425 Side.buy (1/2) = 2925/2 := by
  have hd : ∀ x : ℚ, 0 ≤ factor → 0 ≤ |x| * factor := fun x h0 =>
    mul_nonneg (abs_nonneg x) h0
  refine ⟨?_, ?_, by norm_num [apply_stoploss_distance_factor]⟩
  · intro h0 h1
    unfold apply_stoploss_distance_factor
    rw [if_neg (not_le.mpr h1)]
    cases side
    · dsimp only
      refine ⟨?_, ?_, ?_⟩
      · have he : entry_price - (entry_price - |entry_price - sl_price| * factor) =
            |entry_price - sl_price| * factor := by ring
        rw [he, abs_of_nonneg (hd _ h0), mul_comm]
      · intro _
        exact sub_le_self _ (hd _ h0)
      · intro hs
        exact Side.noConfusion hs
    · dsimp only
      refine ⟨?_, ?_, ?_⟩
      · have he : entry_price - (entry_price + |entry_price - sl_price| * factor) =
            -(|entry_price - sl_price| * factor) := by ring
        rw [he, abs_neg, abs_of_nonneg (hd _ h0), mul_comm]
      · intro hs
        exact Side.noConfusion hs
      · intro _
        exact le_add_of_nonneg_right (hd _ h0)
  · intro h1
    unfold apply_stoploss_distance_factor
    rw [if_pos h1]

/-- C8 witness: the concrete check of the specification, tightening entry
1500 and stop 1425 by factor 0.5 puts the stop at distance 37.5 below the
entry. -/
theorem C8_distance_factor_witness :
    |(1500 : ℚ) - apply_stoploss_distance_factor 1500 1425 Side.buy (1/2)| =
      (1/2) * |(1500 : ℚ) - 1425| :=
  (((C8_distance_factor 1500 1425 (1/2) Side.buy).1 (by norm_num) (by norm_num))).1

/-- Concrete monitoring-loop configuration for counterexamples and
witnesses: ATR trailing from 1.5R with multiplier 1.2, staged booking on,
daily loss limit off for this trade. -/
def demo_cfg : BotConfig :=
  { use_atr_trailing_exit := true, atr_trail_start_r := 3/2,
    atr_trail_multiplier := 6/5, use_staged_booking := true,
    use_daily_loss_limit := false, auto_shutdown_on_loss_limit := true,
    daily_loss_limit_pct := 1/50 }

/-- Concrete trade for counterexamples and witnesses: long, entry 100,
initial stop 95 (risk 5), targets at 0.5R and 1R, quantity 10 with staged
close quantities 2 and 5. -/
def demo_p : TradeParams :=
  { entry_side := Side.buy, entry_price := 100, quantity := 10,
    initial_sl := 95, base_risk := 5, target_price := some (205/2),
    second_target_price := some 105, first_close_qty := 2,
    second_close_qty := 5, starting_balance := some 20000,
    account_balance := none }

/-- Concrete tick input: live price 108 (1.6R in profit), ATR 1, all
orders succeed. -/
def demo_inp : TickInput :=
  { eod_reached := false, price := some 108, atr := some 1,
    t1_order_ok := true, t2_order_ok := true, final_order_ok := true }

/-- Full evaluation of the demo tick: the ATR trail raises the stop to
106.8, the 1R breakeven move lowers it to 100, both targets book (legs 2
and 5 at price 108, P&L 56), the stage-2 lock leaves the stop at the entry
price and 3 shares remain. -/
theorem demo_tick_eval :
    monitoring_tick demo_cfg demo_p (initial_trade_state demo_p) demo_inp =
      { state := { sl_price := 100, last_price := 108, sl_moved_to_breakeven := true,
                   sl_moved_to_entry_after_2r := true, booked_75pct := true,
                   first_leg_booked := true, second_leg_booked := true,
                   remaining_quantity := 3, realized_pnl := 56, exited_qtys := [2, 5],
                   trades := [], trades_today := [], should_stop := false },
        outcome := TickOutcome.cont,
        sl_moves := [534/5, 100, 100] } := by
  norm_num [monitoring_tick, price_update, atr_trailing_update, staged_booking_update,
    breakeven_1r_update, target1_update, target2_update, closing_checks, close_final,
    check_daily_loss_limit, pyTruthy, legPnl, directional_profit, price_crossed,
    initial_trade_state, demo_cfg, demo_p, demo_inp, min_def, max_def]
  rw [if_neg (fun h => Side.noConfusion h)]
  exact ⟨rfl, rfl⟩

/-- Concrete configuration for the C9 counterexample: retest entry
disabled, every filter enabled. -/
def c9_cfg : SignalConfig :=
  { use_retest_entry := false, retest_max_candles := 3, retest_zone_pct := 2/25,
    use_volume_filter := true, use_trend_filter := true, use_liquidity_filter := true }

/-- Concrete candle for the C9 counterexample: a long breakout with volume
confirmation failing and every other filter passing. -/
def c9_inp : SymbolInputs :=
  { vwap := 100, long_trigger := 201/2, short_trigger := 99, c5 := 101, h5 := 102,
    l5 := 100, candle_time := 935, volume_confirmed := false,
    bias_blocking_buy := false, bias_blocking_sell := false,
    trend_aligned_buy := true, trend_aligned_sell := true, liquidity_ok := true }

/-- C9 counterexample: in the PRIMARY entry window a direct breakout entry
signal fires with volume confirmation failing, even with the volume filter
enabled — volume confirmation is not required in every entry-window
state. -/
theorem C9_filter_chain_counterexample :
    c9_inp.volume_confirmed = false ∧
    c9_cfg.use_volume_filter = true ∧
    evaluate_symbol c9_cfg WindowState.primary none c9_inp =
      SymbolDecision.fire Side.buy 101 none := by
  refine ⟨rfl, rfl, ?_⟩
  norm_num [evaluate_symbol, c9_cfg, c9_inp]
  exact fun h => WindowState.noConfusion h

/-- C9 (amended): an entry signal passes the index-bias block, the trend
filter and the liquidity filter; on the retest-confirmation path volume
confirmation is required whenever the volume filter is enabled; on the
direct breakout path (which only fires when retest entry is disabled)
volume confirmation is required only in the SOFT window; the entry window
gate itself rejects any time at or after 10:45; and the entry price is
the candle close.  The original claim fails because a PRIMARY-window
direct entry can fire without volume confirmation. -/
theorem C9_filter_chain_amended (cfg : SignalConfig) (window : WindowState)
    (pending : Option RetestState) (inp : SymbolInputs) (side : Side)
    (e : ℚ) (r : Option RetestState)
    (hfire : evaluate_symbol cfg window pending inp = SymbolDecision.fire side e r) :
    bias_blocking inp side = false ∧
    (cfg.use_trend_filter = true → trend_aligned inp side = true) ∧
    (cfg.use_liquidity_filter = true → inp.liquidity_ok = true) ∧
    (∀ st, cfg.use_retest_entry = true → pending = some st →
      (cfg.use_volume_filter = true → inp.volume_confirmed = true) ∧ side = st.side) ∧
    ((cfg.use_retest_entry = true → pending = none) →
      cfg.use_retest_entry = false ∧
      (window = WindowState.soft → inp.volume_confirmed = true)) ∧
    (∀ t : ℤ, 1045 ≤ t → entry_window_of_time t = none) ∧
    e = inp.c5 := by
  have hwin : ∀ t : ℤ, 1045 ≤ t → entry_window_of_time t = none := by
    intro t ht
    unfold entry_window_of_time
    rw [if_pos ht]
  cases hu : cfg.use_retest_entry <;> rcases hp : pending with _ | st <;> subst hp
  · -- retest disabled, no pending record: direct path
    unfold evaluate_symbol at hfire
    rw [hu] at hfire
    dsimp only at hfire
    split_ifs at hfire with h1 h2 h3 h4 h5 h6 h7 h8 h9 h10 h11 h12 <;>
      try (exfalso; simp at hfire; done)
    · injection hfire with hs he hr
      subst hs; subst he
      refine ⟨by simpa using h3, ?_, ?_, ?_, ?_, hwin, rfl⟩
      · intro htf
        by_contra hna
        exact h4 ⟨htf, by simpa using hna⟩
      · intro hlf
        by_contra hna
        exact h5 ⟨hlf, by simpa using hna⟩
      · intro st' h _
        simp at h
      · intro _
        refine ⟨rfl, ?_⟩
        intro hsoft
        by_contra hnv
        exact h2 ⟨hsoft, by simpa using hnv⟩
    · injection hfire with hs he hr
      subst hs; subst he
      refine ⟨by simpa using h9, ?_, ?_, ?_, ?_, hwin, rfl⟩
      · intro htf
        by_contra hna
        exact h10 ⟨htf, by simpa using hna⟩
      · intro hlf
        by_contra hna
        exact h11 ⟨hlf, by simpa using hna⟩
      · intro st' h _
        simp at h
      · intro _
        refine ⟨rfl, ?_⟩
        intro hsoft
        by_contra hnv
        exact h8 ⟨hsoft, by simpa using hnv⟩
  · -- retest disabled, stale pending record: still the direct path
    unfold evaluate_symbol at hfire
    rw [hu] at hfire
    dsimp only at hfire
    split_ifs at hfire with h1 h2 h3 h4 h5 h6 h7 h8 h9 h10 h11 h12 <;>
      try (exfalso; simp at hfire; done)
    · injection hfire with hs he hr
      subst hs; subst he
      refine ⟨by simpa using h3, ?_, ?_, ?_, ?_, hwin, rfl⟩
      · intro htf
        by_contra hna
        exact h4 ⟨htf, by simpa using hna⟩
      · intro hlf
        by_contra hna
        exact h5 ⟨hlf, by simpa using hna⟩
      · intro st' h _
        simp at h
      · intro _
        refine ⟨rfl, ?_⟩
        intro hsoft
        by_contra hnv
        exact h2 ⟨hsoft, by simpa using hnv⟩
    · injection hfire with hs he hr
      subst hs; subst he
      refine ⟨by simpa using h9, ?_, ?_, ?_, ?_, hwin, rfl⟩
      · intro htf
        by_contra hna
        exact h10 ⟨htf, by simpa using hna⟩
      · intro hlf
        by_contra hna
        exact h11 ⟨hlf, by simpa using hna⟩
      · intro st' h _
        simp at h
      · intro _
        refine ⟨rfl, ?_⟩
        intro hsoft
        by_contra hnv
        exact h8 ⟨hsoft, by simpa using hnv⟩
  · -- retest enabled, no pending record: the direct path never fires
    unfold evaluate_symbol at hfire
    rw [hu] at hfire
    dsimp only at hfire
    split_ifs at hfire <;> first
      | (exfalso; simp at hfire; done)
      | simp_all
  · -- retest enabled with a pending record: the retest-confirmation path
    obtain ⟨sside, strig, slast, swait⟩ := st
    unfold evaluate_symbol at hfire
    rw [hu] at hfire
    dsimp only at hfire
    cases sside <;> dsimp only at hfire <;>
      split_ifs at hfire with h1 h2 h3 h4 h5 h6 h7 <;>
      try (exfalso; simp at hfire; done)
    · injection hfire with hs he hr
      subst hs; subst he
      refine ⟨by simpa using h5, ?_, ?_, ?_, ?_, hwin, rfl⟩
      · intro htf
        by_contra hna
        exact h6 ⟨htf, by simpa using hna⟩
      · intro hlf
        by_contra hna
        exact h7 ⟨hlf, by simpa using hna⟩
      · intro st' _ heq
        injection heq with heq'
        subst heq'
        refine ⟨?_, rfl⟩
        intro hvf
        by_contra hnv
        exact h4 ⟨hvf, by simpa using hnv⟩
      · intro hco
        exact absurd (hco rfl) (by simp)
    · injection hfire with hs he hr
      subst hs; subst he
      refine ⟨by simpa using h5, ?_, ?_, ?_, ?_, hwin, rfl⟩
      · intro htf
        by_contra hna
        exact h6 ⟨htf, by simpa using hna⟩
      · intro hlf
        by_contra hna
        exact h7 ⟨hlf, by simpa using hna⟩
      · intro st' _ heq
        injection heq with heq'
        subst heq'
        refine ⟨?_, rfl⟩
        intro hvf
        by_contra hnv
        exact h4 ⟨hvf, by simpa using hnv⟩
      · intro hco
        exact absurd (hco rfl) (by simp)

/-- C9 witness for the amended theorem at the counterexample's fire:
the bias block is clear and the entry price is the candle close. -/
theorem C9_filter_chain_amended_witness :
    bias_blocking c9_inp Side.buy = false ∧ (101 : ℚ) = c9_inp.c5 := by
  have h := C9_filter_chain_amended c9_cfg WindowState.primary none c9_inp
    Side.buy 101 none (by
      norm_num [evaluate_symbol, c9_cfg, c9_inp]
      exact fun h => WindowState.noConfusion h)
  exact ⟨h.1, h.2.2.2.2.2.2⟩

/-- C10: re-evaluating a candle whose timestamp equals the pending retest
record's last seen candle time leaves the pending record unchanged (the
wait counter is not incremented) and produces no entry signal. -/
theorem C10_retest_dedup (cfg : SignalConfig) (window : WindowState)
    (st : RetestState) (inp : SymbolInputs)
    (hr : cfg.use_retest_entry = true)
    (ht : inp.candle_time = st.last_candle_time) :
    evaluate_symbol cfg window (some st) inp = SymbolDecision.skip (some st) := by
  unfold evaluate_symbol
  rw [hr]
  dsimp only
  rw [if_pos ht]

/-- C10 witness: a concrete pending retest re-evaluated at its own last
candle time is skipped with the record intact. -/
theorem C10_retest_dedup_witness :
    evaluate_symbol
      { use_retest_entry := true, retest_max_candles := 3, retest_zone_pct := 2/25,
        use_volume_filter := true, use_trend_filter := true, use_liquidity_filter := true }
      WindowState.primary
      (some { side := Side.buy, trigger := 100, last_candle_time := 935, candles_waited := 1 })
      { vwap := 100, long_trigger := 100, short_trigger := 99, c5 := 101, h5 := 102,
        l5 := 100, candle_time := 935, volume_confirmed := true,
        bias_blocking_buy := false, bias_blocking_sell := false,
        trend_aligned_buy := true, trend_aligned_sell := true, liquidity_ok := true } =
      SymbolDecision.skip
        (some { side := Side.buy, trigger := 100, last_candle_time := 935, candles_waited := 1 }) :=
  C10_retest_dedup _ WindowState.primary _ _ rfl rfl

/-- C1 counterexample: on a single monitoring tick of a long trade (entry
100, stop 95, risk 5) at price 108 with ATR 1, the ATR trail first raises
the stop to 106.8 and the 1R breakeven move then lowers it back to 100, so
the stop-price sequence 95, 106.8, 100, 100 over the three stop-moving
operations is not non-decreasing: the stop loosens. -/
theorem C1_stop_ratchet_counterexample :
    demo_p.entry_side = Side.buy ∧
    (monitoring_tick demo_cfg demo_p (initial_trade_state demo_p) demo_inp).sl_moves =
      [534/5, 100, 100] ∧
    rat_chain_le ((initial_trade_state demo_p).sl_price ::
      (monitoring_tick demo_cfg demo_p (initial_trade_state demo_p) demo_inp).sl_moves) =
      false := by
  refine ⟨rfl, ?_, ?_⟩
  · rw [demo_tick_eval]
  · rw [demo_tick_eval]
    norm_num [initial_trade_state, demo_p, rat_chain_le]

/-- C1 (amended): per monitoring tick, the stop trace clamped at the entry
price never loosens — for a long trade min(stop, entry) is non-decreasing
through the ATR trailing update, the 1R breakeven move and the stage-2
lock, and the ATR trailing update alone never loosens the raw stop
(symmetric statements for a short); the tick's final stop equals the last
trace entry.  The unclamped claim fails only because the two breakeven
moves set the stop to exactly the entry price, which is below a stop that
the ATR trail has already pushed beyond the entry. -/
theorem C1_stop_ratchet_amended (cfg : BotConfig) (p : TradeParams)
    (s : TradeState) (inp : TickInput) :
    ((monitoring_tick cfg p s inp).state.sl_price =
      (monitoring_tick cfg p s inp).sl_moves.getLastD s.sl_price) ∧
    (p.entry_side = Side.buy →
      rat_chain_le ((s.sl_price :: (monitoring_tick cfg p s inp).sl_moves).map
        (fun x => min x p.entry_price)) = true ∧
      ∀ price atr, s.sl_price ≤ (atr_trailing_update cfg p s price atr).1.sl_price) ∧
    (p.entry_side = Side.sell →
      rat_chain_ge ((s.sl_price :: (monitoring_tick cfg p s inp).sl_moves).map
        (fun x => max x p.entry_price)) = true ∧
      ∀ price atr, (atr_trailing_update cfg p s price atr).1.sl_price ≤ s.sl_price) := by
  have htrail_buy : p.entry_side = Side.buy →
      ∀ price atr, s.sl_price ≤ (atr_trailing_update cfg p s price atr).1.sl_price := by
    intro hbuy price atr
    obtain ⟨_, h1⟩ | ⟨_, hlt⟩ := atr_trail_buy_ratchet cfg p s price atr hbuy
    · exact h1.ge
    · exact le_of_lt hlt
  have htrail_sell : p.entry_side = Side.sell →
      ∀ price atr, (atr_trailing_update cfg p s price atr).1.sl_price ≤ s.sl_price := by
    intro hsell price atr
    obtain ⟨_, h1⟩ | ⟨_, hlt⟩ := atr_trail_sell_ratchet cfg p s price atr hsell
    · exact h1.le
    · exact le_of_lt hlt
  obtain ⟨hm, hsl, _⟩ | ⟨price, hp, heq⟩ := monitoring_tick_early_or_price cfg p s inp
  · refine ⟨by rw [hm, hsl]; rfl, ?_, ?_⟩
    · intro hbuy
      exact ⟨by rw [hm]; simp [rat_chain_le], htrail_buy hbuy⟩
    · intro hsell
      exact ⟨by rw [hm]; simp [rat_chain_ge], htrail_sell hsell⟩
  · refine ⟨by rw [heq]; exact price_update_sl_last cfg p s inp price, ?_, ?_⟩
    · intro hbuy
      exact ⟨by rw [heq]; exact price_update_chain_buy cfg p s inp price hbuy,
        htrail_buy hbuy⟩
    · intro hsell
      exact ⟨by rw [heq]; exact price_update_chain_sell cfg p s inp price hsell,
        htrail_sell hsell⟩

/-- C1 witness for the amended theorem on the demo tick: the entry-clamped
stop trace min(stop, 100) of the long demo trade is non-decreasing. -/
theorem C1_stop_ratchet_witness :
    rat_chain_le (((initial_trade_state demo_p).sl_price ::
      (monitoring_tick demo_cfg demo_p (initial_trade_state demo_p) demo_inp).sl_moves).map
        (fun x => min x demo_p.entry_price)) = true :=
  ((C1_stop_ratchet_amended demo_cfg demo_p (initial_trade_state demo_p) demo_inp).2.1
    rfl).1

/-- C2: whenever a monitoring tick completes the second partial-booking
leg (the stage-2 flag turns from false to true), the stop price after the
tick equals the entry price exactly, so the worst case of the remaining
exposure — exiting the remaining quantity at the stop — has leg P&L zero,
hence at least zero. -/
theorem C2_stage2_breakeven_lock (cfg : BotConfig) (p : TradeParams)
    (s : TradeState) (inp : TickInput)
    (hpre : s.second_leg_booked = false)
    (hpost : (monitoring_tick cfg p s inp).state.second_leg_booked = true) :
    (monitoring_tick cfg p s inp).state.sl_price = p.entry_price ∧
    legPnl p.entry_side p.entry_price (monitoring_tick cfg p s inp).state.sl_price
      (monitoring_tick cfg p s inp).state.remaining_quantity = 0 ∧
    0 ≤ legPnl p.entry_side p.entry_price (monitoring_tick cfg p s inp).state.sl_price
      (monitoring_tick cfg p s inp).state.remaining_quantity := by
  have hsl : (monitoring_tick cfg p s inp).state.sl_price = p.entry_price := by
    obtain ⟨_, _, h2, _⟩ | ⟨price, hp, heq⟩ := monitoring_tick_early_or_price cfg p s inp
    · exfalso
      rw [h2, hpre] at hpost
      exact Bool.false_ne_true hpost
    · rw [heq] at hpost ⊢
      exact price_update_second cfg p s inp price hpre hpost
  have hzero : legPnl p.entry_side p.entry_price
      (monitoring_tick cfg p s inp).state.sl_price
      (monitoring_tick cfg p s inp).state.remaining_quantity = 0 := by
    rw [hsl]
    cases p.entry_side <;> simp [legPnl]
  exact ⟨hsl, hzero, le_of_eq hzero.symm⟩

/-- C2 witness on the demo tick: the demo tick books the second leg and
leaves the stop exactly at the entry price 100. -/
theorem C2_stage2_breakeven_lock_witness :
    (monitoring_tick demo_cfg demo_p (initial_trade_state demo_p) demo_inp).state.sl_price =
      demo_p.entry_price :=
  (C2_stage2_breakeven_lock demo_cfg demo_p (initial_trade_state demo_p) demo_inp
    rfl (by rw [demo_tick_eval])).1

/-- C3: the quantity accounting of the exit-management loop — the
invariant "remaining quantity plus the sum of all exited leg quantities
equals the initial quantity, with at least one share remaining" holds in
the loop's initial state (given at least one share) and is preserved by
every monitoring tick, including ticks that run the partial bookings and
the duplicated second-leg state-update block; consequently the remaining
quantity always equals initial minus the exited sum and is non-negative. -/
theorem C3_quantity_accounting (cfg : BotConfig) (p : TradeParams)
    (s : TradeState) (inp : TickInput)
    (hq : 1 ≤ p.quantity) (hinv : trade_inv p s) :
    trade_inv p (initial_trade_state p) ∧
    trade_inv p (monitoring_tick cfg p s inp).state ∧
    (monitoring_tick cfg p s inp).state.remaining_quantity =
      p.quantity - (monitoring_tick cfg p s inp).state.exited_qtys.sum ∧
    0 ≤ (monitoring_tick cfg p s inp).state.remaining_quantity := by
  have hstep : trade_inv p (monitoring_tick cfg p s inp).state := by
    obtain ⟨_, _, _, h4, h5, _⟩ | ⟨price, hp, heq⟩ :=
      monitoring_tick_early_or_price cfg p s inp
    · exact ⟨by rw [h4, h5]; exact hinv.1, by rw [h4]; exact hinv.2⟩
    · rw [heq]
      exact price_update_inv cfg p s inp price hinv
  refine ⟨⟨by simp [initial_trade_state], by simpa [initial_trade_state] using hq⟩,
    hstep, ?_, ?_⟩
  · have h := hstep.1
    omega
  · have h1 := hstep.1
    have h2 := hstep.2
    omega

/-- C3 witness on the demo tick: after booking legs 2 and 5 from the
initial 10 shares, 3 remain, which is 10 minus the exited sum and
non-negative. -/
theorem C3_quantity_accounting_witness :
    0 ≤ (monitoring_tick demo_cfg demo_p (initial_trade_state demo_p) demo_inp).state.remaining_quantity :=
  (C3_quantity_accounting demo_cfg demo_p (initial_trade_state demo_p) demo_inp
    (by norm_num [demo_p]) ⟨by simp [initial_trade_state, demo_p], by simp [initial_trade_state, demo_p]⟩).2.2.2

/-- C4: the daily loss breaker trips exactly when the day's cumulative
realized P&L over the starting capital is at most minus the configured
threshold; with capital 20000 and the default 2% threshold it trips at
cumulative P&L -400 (closing all positions and latching should_stop) and
does not trip at -399; a latched should_stop is never cleared by the
check; a tripped check makes the monitoring tick force-close the remaining
quantity at the last observed price and end the session; and the latched
flag stops the entry-scanning loop, blocking new entries. -/
theorem C4_daily_loss_breaker :
    (∀ (pnls : List ℚ) (capital limit : ℚ) (auto ss0 : Bool), 0 < capital →
      ((check_daily_loss_limit true auto limit pnls (some capital) none ss0).can_continue
          = false ↔ pnls.sum / capital ≤ -limit)) ∧
    (check_daily_loss_limit true true (1/50) [-400] (some 20000) none false =
      { can_continue := false, closed_all_positions := true, should_stop := true }) ∧
    (check_daily_loss_limit true true (1/50) [-399] (some 20000) none false =
      { can_continue := true, closed_all_positions := false, should_stop := false }) ∧
    (∀ (useL auto : Bool) (limit : ℚ) (pnls : List ℚ) (sb ab : Option ℚ),
      (check_daily_loss_limit useL auto limit pnls sb ab true).should_stop = true) ∧
    (∀ (useL auto : Bool) (limit : ℚ) (pnls : List ℚ) (sb ab : Option ℚ) (ss0 : Bool),
      (check_daily_loss_limit useL auto limit pnls sb ab ss0).can_continue = false →
      (check_daily_loss_limit useL auto limit pnls sb ab ss0).closed_all_positions = true ∧
      (auto = true →
        (check_daily_loss_limit useL auto limit pnls sb ab ss0).should_stop = true)) ∧
    (∀ (cfg : BotConfig) (p : TradeParams) (s : TradeState) (inp : TickInput),
      cfg.use_daily_loss_limit = true → inp.eod_reached = false →
      (check_daily_loss_limit cfg.use_daily_loss_limit cfg.auto_shutdown_on_loss_limit
        cfg.daily_loss_limit_pct s.trades_today p.starting_balance p.account_balance
        s.should_stop).can_continue = false →
      (monitoring_tick cfg p s inp).outcome = TickOutcome.stopSession ∧
      (0 < s.remaining_quantity → inp.final_order_ok = true →
        (monitoring_tick cfg p s inp).state.trades =
          s.trades ++ [s.realized_pnl +
            legPnl p.entry_side p.entry_price s.last_price s.remaining_quantity])) ∧
    (∀ sf : Bool, entry_scan_active sf true = false) := by
  refine ⟨?_, ?_, ?_, ?_, ?_, ?_, ?_⟩
  · intro pnls capital limit auto ss0 hcap
    have hb : actual_balance_of (some capital) none = capital := by
      unfold actual_balance_of pyTruthy
      simp [hcap.ne']
    unfold check_daily_loss_limit
    dsimp only
    rw [if_neg (by simp : ¬((true : Bool) = false)), hb, if_pos hcap]
    by_cases htrip : pnls.sum / capital ≤ -limit
    · rw [if_pos htrip]
      simp [htrip]
    · rw [if_neg htrip]
      simp [htrip]
  · norm_num [check_daily_loss_limit, actual_balance_of, pyTruthy]
  · norm_num [check_daily_loss_limit, actual_balance_of, pyTruthy]
  · intro useL auto limit pnls sb ab
    unfold check_daily_loss_limit
    dsimp only
    repeat' split
    all_goals simp
  · intro useL auto limit pnls sb ab ss0
    unfold check_daily_loss_limit
    dsimp only
    repeat' split
    all_goals intro hcc
    all_goals first
      | exact ⟨rfl, fun ha => by simp [ha]⟩
      | exact absurd hcc (by simp)
  · intro cfg p s inp huse heod hchk
    unfold monitoring_tick
    dsimp only
    rw [heod, if_neg (by simp : ¬((false : Bool) = true)), if_pos ⟨huse, hchk⟩]
    constructor
    · repeat' split
      all_goals rfl
    · intro h0 hok
      rw [if_pos h0, if_pos h0]
      unfold close_final
      rw [if_pos hok]
  · intro sf
    simp [entry_scan_active]

/-- C4 witness: at cumulative P&L -500 on capital 20000 with the 2%
threshold, the breaker trips. -/
theorem C4_daily_loss_breaker_witness :
    (check_daily_loss_limit true true (1/50) [-500] (some 20000) none false).can_continue
      = false :=
  (C4_daily_loss_breaker.1 [-500] 20000 (1/50) true false (by norm_num)).mpr
    (by norm_num)

/-- C5: trades_today is empty at construction and no monitoring-tick
operation ever appends to it (closed trades are appended to trades
instead); with the empty list and a positive loss threshold the daily
loss check always allows continuing, so the daily-loss force-liquidation
branch of the monitoring loop is unreachable. -/
theorem C5_trades_today_stays_empty (cfg : BotConfig) (p : TradeParams)
    (s : TradeState) (inp : TickInput)
    (hlim : 0 < cfg.daily_loss_limit_pct) (ht : s.trades_today = []) :
    (initial_trade_state p).trades_today = [] ∧
    (monitoring_tick cfg p s inp).state.trades_today = s.trades_today ∧
    ((monitoring_tick cfg p s inp).state.trades = s.trades ∨
      ∃ x, (monitoring_tick cfg p s inp).state.trades = s.trades ++ [x]) ∧
    (check_daily_loss_limit cfg.use_daily_loss_limit cfg.auto_shutdown_on_loss_limit
      cfg.daily_loss_limit_pct s.trades_today p.starting_balance p.account_balance
      s.should_stop).can_continue = true ∧
    (monitoring_tick cfg p s inp).outcome ≠ TickOutcome.stopSession := by
  have hcheck : (check_daily_loss_limit cfg.use_daily_loss_limit
      cfg.auto_shutdown_on_loss_limit cfg.daily_loss_limit_pct s.trades_today
      p.starting_balance p.account_balance s.should_stop).can_continue = true := by
    unfold check_daily_loss_limit
    dsimp only
    split
    · rfl
    · rw [ht]
      simp only [List.sum_nil, zero_div, ite_self]
      rw [if_neg (by linarith : ¬((0 : ℚ) ≤ -cfg.daily_loss_limit_pct))]
  have hout : (monitoring_tick cfg p s inp).outcome ≠ TickOutcome.stopSession := by
    unfold monitoring_tick
    dsimp only
    split
    · repeat' split
      all_goals simp
    · have hncond : ¬(cfg.use_daily_loss_limit = true ∧
          (check_daily_loss_limit cfg.use_daily_loss_limit
            cfg.auto_shutdown_on_loss_limit cfg.daily_loss_limit_pct s.trades_today
            p.starting_balance p.account_balance s.should_stop).can_continue = false) := by
        rintro ⟨_, hfalse⟩
        rw [hcheck] at hfalse
        exact Bool.false_ne_true hfalse.symm
      rw [if_neg hncond]
      split
      · simp
      · rename_i price hp
        exact (price_update_session_lists cfg p s inp price).2.2
  obtain ⟨_, _, _, _, _, h6, h7⟩ | ⟨price, hp, heq⟩ :=
    monitoring_tick_early_or_price cfg p s inp
  · exact ⟨rfl, h6, h7, hcheck, hout⟩
  · have hs := price_update_session_lists cfg p s inp price
    refine ⟨rfl, ?_, ?_, hcheck, hout⟩
    · rw [heq]
      exact hs.1
    · rw [heq]
      exact hs.2.1

/-- C5 witness on the demo trade: the initial state has empty trades_today
and the demo tick does not take the daily-loss stop branch. -/
theorem C5_trades_today_stays_empty_witness :
    (monitoring_tick demo_cfg demo_p (initial_trade_state demo_p) demo_inp).outcome ≠
      TickOutcome.stopSession :=
  (C5_trades_today_stays_empty demo_cfg demo_p (initial_trade_state demo_p) demo_inp
    (by norm_num [demo_cfg]) rfl).2.2.2.2

end TradingBot
